import Mathlib

/-!
Verification development for the destruction-simulation game in `src/game.js`.

All numeric quantities are modelled over `ℚ` (the JavaScript source uses IEEE
doubles; the claims under study concern exact algebraic relationships, so the
rational model is the faithful idealisation).  Wall-clock reads (`Date.now()`)
and `Math.random()` draws are passed in as explicit parameters so that every
function is a pure translation of the corresponding source code.
-/

namespace Game

/-- Radial damage falloff used everywhere damage propagates
(`Building.takeDamage`, src/game.js:893-894): `(1 - min(1, d/maxD))^p`,
with `p = 3` for explosive weapons and `p = 2` for continuous effects. -/
def falloff (p : ℕ) (maxDistance distance : ℚ) : ℚ :=
  (1 - min 1 (distance / maxDistance)) ^ p

theorem falloff_nonneg (p : ℕ) (maxDistance distance : ℚ) :
    0 ≤ falloff p maxDistance distance := by
  unfold falloff
  exact pow_nonneg (by simp [min_le_left]) p

theorem falloff_le_one (p : ℕ) (maxDistance distance : ℚ)
    (hd : 0 ≤ distance) (hm : 0 < maxDistance) :
    falloff p maxDistance distance ≤ 1 := by
  unfold falloff
  have h0 : (0:ℚ) ≤ distance / maxDistance := div_nonneg hd hm.le
  have hmin : (0:ℚ) ≤ min 1 (distance / maxDistance) := le_min (by norm_num) h0
  have hbase : (1 - min 1 (distance / maxDistance)) ≤ 1 := by linarith
  exact pow_le_one₀ (by simp [min_le_left]) hbase

theorem falloff_zero (p : ℕ) (maxDistance : ℚ) (hm : 0 < maxDistance) :
    falloff p maxDistance 0 = 1 := by
  unfold falloff
  rw [zero_div, min_eq_right (by norm_num : (0:ℚ) ≤ 1)]
  norm_num

theorem falloff_max (p : ℕ) (maxDistance : ℚ) (hp : 0 < p) (hm : 0 < maxDistance) :
    falloff p maxDistance maxDistance = 0 := by
  unfold falloff
  rw [div_self hm.ne', min_self]
  simp [hp.ne']

theorem falloff_antitone (p : ℕ) (maxDistance d₁ d₂ : ℚ)
    (hm : 0 < maxDistance) (h₁₂ : d₁ ≤ d₂) :
    falloff p maxDistance d₂ ≤ falloff p maxDistance d₁ := by
  unfold falloff
  have hdiv : d₁ / maxDistance ≤ d₂ / maxDistance := by gcongr
  have hmin : min 1 (d₁ / maxDistance) ≤ min 1 (d₂ / maxDistance) :=
    min_le_min le_rfl hdiv
  have hbase : 1 - min 1 (d₂ / maxDistance) ≤ 1 - min 1 (d₁ / maxDistance) := by linarith
  exact pow_le_pow_left₀ (by simp [min_le_left]) hbase p

/-- Claim C1: the damage falloff multiplier `falloff(d) = (1 - min(1, d/maxDistance))^p`
(`p = 3` for explosive weapons, `p = 2` for continuous effects) satisfies
`0 ≤ falloff(d) ≤ 1` on `[0, maxDistance]`, `falloff(0) = 1`,
`falloff(maxDistance) = 0`, and is monotonically non-increasing in distance. -/
theorem falloff_spec (p : ℕ) (maxDistance : ℚ) (hp : 0 < p) (hm : 0 < maxDistance) :
    (∀ d : ℚ, 0 ≤ d → d ≤ maxDistance →
      0 ≤ falloff p maxDistance d ∧ falloff p maxDistance d ≤ 1) ∧
    falloff p maxDistance 0 = 1 ∧
    falloff p maxDistance maxDistance = 0 ∧
    (∀ d₁ d₂ : ℚ, d₁ ≤ d₂ →
      falloff p maxDistance d₂ ≤ falloff p maxDistance d₁) := by
  refine ⟨fun d hd _ => ⟨falloff_nonneg p maxDistance d, falloff_le_one p maxDistance d hd hm⟩,
    falloff_zero p maxDistance hm, falloff_max p maxDistance hp hm,
    fun d₁ d₂ h => falloff_antitone p maxDistance d₁ d₂ hm h⟩

/-- Witness for C1 at the nuclear-bomb parameters (`p = 3`, radius `200`)
and the continuous-effect exponent (`p = 2`). -/
theorem falloff_spec_witness :
    (0 ≤ falloff 3 200 80 ∧ falloff 3 200 80 ≤ 1) ∧
    falloff 3 200 0 = 1 ∧ falloff 2 200 200 = 0 := by
  refine ⟨(falloff_spec 3 200 (by norm_num) (by norm_num)).1 80 (by norm_num) (by norm_num),
    (falloff_spec 3 200 (by norm_num) (by norm_num)).2.1,
    (falloff_spec 2 200 (by norm_num) (by norm_num)).2.2.1⟩

/-- Building lifecycle states (src/game.js:545, `'alive' | 'collapsing' | 'collapsed'`). -/
inductive BuildingState
  | alive
  | collapsing
  | collapsed
deriving DecidableEq, Repr

/-- Fields of `Building` (src/game.js:537-560) relevant to the damage pipeline.
`destroyed` is the legacy flag set together with `state = 'collapsed'` at the
end of `updateCollapse` (src/game.js:1358-1359). -/
structure Building where
  health : ℚ
  maxHealth : ℚ
  materialResistance : ℚ
  damageStage : ℕ
  previousDamageStage : ℕ
  state : BuildingState
  destroyed : Bool
deriving DecidableEq, Repr

/-- Damage-stage table of `Building.takeDamage` (src/game.js:900-914):
stage from the health fraction, with any fraction `≤ 0` forced to 3. -/
def damageStageOf (healthPercent : ℚ) : ℕ :=
  if healthPercent ≤ 0 then 3
  else if healthPercent ≤ 1/5 then 3
  else if healthPercent ≤ 1/2 then 2
  else if healthPercent ≤ 3/4 then 1
  else 0

/-- Side effects emitted by one `Building.takeDamage` call: micro-debris
bursts (src/game.js:919), dust clouds (src/game.js:922), impact scars
(src/game.js:929-935), rate-limited dust puffs (src/game.js:938-943), and
whether `startCollapse` ran (src/game.js:945-951). -/
structure DamageFx where
  microBursts : ℕ
  dustClouds : ℕ
  impactScars : ℕ
  dustPuffs : ℕ
  startedCollapse : Bool
deriving DecidableEq, Repr

/-- No side effects. -/
def DamageFx.silent : DamageFx := ⟨0, 0, 0, 0, false⟩

/-- Translation of `Building.takeDamage(damage, distance, maxDistance)`
(src/game.js:884-952).  `rateLimitOpen` stands for the wall-clock check
`Date.now() - lastHitTime > 100` guarding the wobble/dust-puff branch. -/
def Building.takeDamage (b : Building) (damage distance maxDistance : ℚ)
    (rateLimitOpen : Bool) : Building × DamageFx :=
  if b.destroyed then (b, DamageFx.silent)
  else
    let adjustedDamage := damage * b.materialResistance
    let finalDamage :=
      if 0 < distance ∧ 0 < maxDistance then
        adjustedDamage * falloff 3 maxDistance distance
      else adjustedDamage
    let newHealth := b.health - finalDamage
    let healthPercent := newHealth / b.maxHealth
    let prevStage := b.damageStage
    let newStage := damageStageOf healthPercent
    let crossed := prevStage < newStage ∧ 0 < newStage
    let fx : DamageFx :=
      { microBursts := if crossed then 1 else 0
        dustClouds := if crossed ∧ 2 ≤ newStage then 1 else 0
        impactScars := if 0 < distance ∧ distance < maxDistance then 1 else 0
        dustPuffs := if rateLimitOpen then 1 else 0
        startedCollapse := decide (newHealth ≤ 0 ∧ b.state = BuildingState.alive) }
    let b' : Building :=
      { b with
        health := newHealth
        previousDamageStage := prevStage
        damageStage := newStage }
    if newHealth ≤ 0 then
      ({ b' with
          health := 0
          state := if b.state = BuildingState.alive then BuildingState.collapsing
                   else b.state }, fx)
    else (b', fx)

/-- Claim C2: `takeDamage` on a collapsed building is a complete no-op
(state and fields unchanged, no side effects), and health never increases.
The hypothesis `hcd` is the link between the legacy `destroyed` flag and the
`collapsed` state, established jointly by the constructor
(src/game.js:545-546) and `updateCollapse` (src/game.js:1358-1359); the
nonnegativity hypotheses hold of every reachable building
(`materialResistance ∈ [0.7, 1.3)`, health clamped at 0). -/
theorem takeDamage_collapsed_noop_health_monotone
    (b : Building) (damage distance maxDistance : ℚ) (rl : Bool)
    (hcd : b.state = BuildingState.collapsed → b.destroyed = true)
    (hdmg : 0 ≤ damage) (hres : 0 ≤ b.materialResistance) (hh : 0 ≤ b.health) :
    (b.state = BuildingState.collapsed →
      b.takeDamage damage distance maxDistance rl = (b, DamageFx.silent)) ∧
    (b.takeDamage damage distance maxDistance rl).1.health ≤ b.health := by
  constructor
  · intro hc
    simp [Building.takeDamage, hcd hc]
  · unfold Building.takeDamage
    by_cases hd : b.destroyed
    · simp [hd]
    · have h1 : 0 ≤ damage * b.materialResistance := mul_nonneg hdmg hres
      have h2 : 0 ≤ damage * b.materialResistance * falloff 3 maxDistance distance :=
        mul_nonneg h1 (falloff_nonneg _ _ _)
      simp only [hd, Bool.false_eq_true, if_false]
      split <;> split <;> dsimp only <;> linarith

/-- Witness for C2: a collapsed building with 0 health ignores a nuke-sized hit. -/
theorem takeDamage_collapsed_noop_health_monotone_witness :
    (Building.takeDamage ⟨0, 400, 1, 3, 3, BuildingState.collapsed, true⟩ 120 0 200 false
      = (⟨0, 400, 1, 3, 3, BuildingState.collapsed, true⟩, DamageFx.silent)) ∧
    (Building.takeDamage ⟨0, 400, 1, 3, 3, BuildingState.collapsed, true⟩ 120 0 200 false).1.health
      ≤ (0 : ℚ) :=
  ⟨(takeDamage_collapsed_noop_health_monotone
      ⟨0, 400, 1, 3, 3, BuildingState.collapsed, true⟩ 120 0 200 false
      (fun _ => rfl) (by norm_num) (by norm_num) (by norm_num)).1 rfl,
   (takeDamage_collapsed_noop_health_monotone
      ⟨0, 400, 1, 3, 3, BuildingState.collapsed, true⟩ 120 0 200 false
      (fun _ => rfl) (by norm_num) (by norm_num) (by norm_num)).2⟩

/-- Health fractions at or below another yield an equal or higher damage stage
(the stage table of src/game.js:904-914 is antitone in the health fraction). -/
theorem damageStageOf_antitone {a b : ℚ} (h : a ≤ b) :
    damageStageOf b ≤ damageStageOf a := by
  unfold damageStageOf
  split_ifs <;> first | omega | linarith

/-- Nonpositive health fractions are forced to stage 3 (src/game.js:904-905). -/
theorem damageStageOf_nonpos {a : ℚ} (h : a ≤ 0) : damageStageOf a = 3 := by
  unfold damageStageOf
  simp [h]

/-- Representation invariant of a reachable `Building`: the stored
`damageStage` agrees with the stage table applied to the current health
fraction (established by the constructor, src/game.js:543-558, and
re-established by every `takeDamage`), health is clamped at 0, `maxHealth`
is positive and `materialResistance` nonnegative (src/game.js:543-544). -/
def Building.Wf (b : Building) : Prop :=
  b.damageStage = damageStageOf (b.health / b.maxHealth) ∧
  0 ≤ b.health ∧ 0 < b.maxHealth ∧ 0 ≤ b.materialResistance

instance (b : Building) : Decidable b.Wf := by
  unfold Building.Wf
  infer_instance

/-- One `takeDamage` call preserves the representation invariant, never
lowers the damage stage, and emits the micro-debris burst exactly when the
stage strictly increased (plus the dust cloud when additionally the new
stage is at least 2). -/
theorem takeDamage_stage_step (b : Building) (damage distance maxDistance : ℚ)
    (rl : Bool) (hwf : b.Wf) (hdmg : 0 ≤ damage) :
    (b.takeDamage damage distance maxDistance rl).1.Wf ∧
    b.damageStage ≤ (b.takeDamage damage distance maxDistance rl).1.damageStage ∧
    (b.takeDamage damage distance maxDistance rl).2.microBursts
      = (if b.damageStage < (b.takeDamage damage distance maxDistance rl).1.damageStage
         then 1 else 0) ∧
    (b.takeDamage damage distance maxDistance rl).2.dustClouds
      = (if b.damageStage < (b.takeDamage damage distance maxDistance rl).1.damageStage
            ∧ 2 ≤ (b.takeDamage damage distance maxDistance rl).1.damageStage
         then 1 else 0) := by
  obtain ⟨hstage, hh, hmax, hres⟩ := hwf
  unfold Building.takeDamage
  by_cases hd : b.destroyed
  · simp [hd, Building.Wf, hstage, hh, hmax, hres, DamageFx.silent]
  · have h1 : 0 ≤ damage * b.materialResistance := mul_nonneg hdmg hres
    have h2 : 0 ≤ damage * b.materialResistance * falloff 3 maxDistance distance :=
      mul_nonneg h1 (falloff_nonneg _ _ _)
    have hkey : ∀ fd : ℚ, 0 ≤ fd →
        b.damageStage ≤ damageStageOf ((b.health - fd) / b.maxHealth) := by
      intro fd hfd
      rw [hstage]
      exact damageStageOf_antitone (by gcongr; linarith)
    have hfin : ∀ fd : ℚ, 0 ≤ fd →
        Building.Wf (if b.health - fd ≤ 0 then
            { b with
                health := 0
                previousDamageStage := b.damageStage
                damageStage := damageStageOf ((b.health - fd) / b.maxHealth)
                state := (if b.state = BuildingState.alive then BuildingState.collapsing
                          else b.state) }
          else
            { b with
                health := b.health - fd
                previousDamageStage := b.damageStage
                damageStage := damageStageOf ((b.health - fd) / b.maxHealth) }) ∧
          b.damageStage ≤ damageStageOf ((b.health - fd) / b.maxHealth) ∧
          ((if b.damageStage < damageStageOf ((b.health - fd) / b.maxHealth) ∧
              0 < damageStageOf ((b.health - fd) / b.maxHealth) then (1:ℕ) else 0)
            = if b.damageStage < damageStageOf ((b.health - fd) / b.maxHealth)
              then 1 else 0) ∧
          ((if (b.damageStage < damageStageOf ((b.health - fd) / b.maxHealth) ∧
                0 < damageStageOf ((b.health - fd) / b.maxHealth)) ∧
              2 ≤ damageStageOf ((b.health - fd) / b.maxHealth) then (1:ℕ) else 0)
            = if b.damageStage < damageStageOf ((b.health - fd) / b.maxHealth) ∧
                2 ≤ damageStageOf ((b.health - fd) / b.maxHealth)
              then 1 else 0) := by
      intro fd hfd
      have hmono := hkey _ hfd
      refine ⟨?_, hmono, by split_ifs <;> omega, by split_ifs <;> omega⟩
      by_cases hclamp : b.health - fd ≤ 0
      · rw [if_pos hclamp]
        refine ⟨?_, le_rfl, hmax, hres⟩
        dsimp only
        rw [zero_div, damageStageOf_nonpos le_rfl,
          damageStageOf_nonpos (div_nonpos_of_nonpos_of_nonneg hclamp hmax.le)]
      · rw [if_neg hclamp]
        exact ⟨rfl, by linarith, hmax, hres⟩
    simp only [hd, Bool.false_eq_true, if_false]
    split <;> rename_i hfall
    · obtain ⟨hwf', hmono, hmb, hdc⟩ := hfin _ h2
      split <;> rename_i hclamp
      · refine ⟨by rw [if_pos hclamp] at hwf'; exact hwf', hmono, hmb, hdc⟩
      · refine ⟨by rw [if_neg hclamp] at hwf'; exact hwf', hmono, hmb, hdc⟩
    · obtain ⟨hwf', hmono, hmb, hdc⟩ := hfin _ h1
      split <;> rename_i hclamp
      · refine ⟨by rw [if_pos hclamp] at hwf'; exact hwf', hmono, hmb, hdc⟩
      · refine ⟨by rw [if_neg hclamp] at hwf'; exact hwf', hmono, hmb, hdc⟩

/-- One damage application: the arguments of a `Building.takeDamage` call. -/
structure Hit where
  damage : ℚ
  distance : ℚ
  maxDistance : ℚ
  rateLimitOpen : Bool
deriving DecidableEq, Repr

/-- Folding a sequence of `takeDamage` calls over a building, collecting the
emitted side effects in order. -/
def runHits (b : Building) : List Hit → Building × List DamageFx
  | [] => (b, [])
  | h :: hs =>
    let step := b.takeDamage h.damage h.distance h.maxDistance h.rateLimitOpen
    let rest := runHits step.1 hs
    (rest.1, step.2 :: rest.2)

/-- The damage stages observed after each successive `takeDamage` call. -/
def stageTrace (b : Building) : List Hit → List ℕ
  | [] => []
  | h :: hs =>
    let b' := (b.takeDamage h.damage h.distance h.maxDistance h.rateLimitOpen).1
    b'.damageStage :: stageTrace b' hs

/-- Expected micro-debris bursts along a stage trace: one burst per call in
which the stage strictly increased. -/
def burstPattern (s₀ : ℕ) : List ℕ → List ℕ
  | [] => []
  | s :: rest => (if s₀ < s then 1 else 0) :: burstPattern s rest

/-- Expected dust clouds along a stage trace: one per call in which the stage
strictly increased into a stage `≥ 2`. -/
def dustPattern (s₀ : ℕ) : List ℕ → List ℕ
  | [] => []
  | s :: rest => (if s₀ < s ∧ 2 ≤ s then 1 else 0) :: dustPattern s rest

/-- Claim C3: across any sequence of `takeDamage` calls with nonnegative
damage on a well-formed building, the damage stage is non-decreasing, the
micro-debris burst fires exactly once per call in which the stage crossed
upward, and the dust cloud fires exactly when additionally the new stage is
at least 2. -/
theorem damageStage_monotone_bursts (b : Building) (hits : List Hit)
    (hwf : b.Wf) (hdmg : ∀ h ∈ hits, 0 ≤ h.damage) :
    List.Chain' (· ≤ ·) (b.damageStage :: stageTrace b hits) ∧
    (runHits b hits).2.map DamageFx.microBursts
      = burstPattern b.damageStage (stageTrace b hits) ∧
    (runHits b hits).2.map DamageFx.dustClouds
      = dustPattern b.damageStage (stageTrace b hits) := by
  induction hits generalizing b with
  | nil => simp [runHits, stageTrace, burstPattern, dustPattern]
  | cons h hs ih =>
    have hd0 : 0 ≤ h.damage := hdmg h (List.mem_cons_self h hs)
    obtain ⟨hwf', hmono, hmb, hdc⟩ :=
      takeDamage_stage_step b h.damage h.distance h.maxDistance h.rateLimitOpen hwf hd0
    obtain ⟨ihc, ihm, ihd⟩ :=
      ih (b.takeDamage h.damage h.distance h.maxDistance h.rateLimitOpen).1 hwf'
        (fun x hx => hdmg x (List.mem_cons_of_mem h hx))
    refine ⟨?_, ?_, ?_⟩
    · rw [stageTrace, List.chain'_cons]
      exact ⟨hmono, ihc⟩
    · rw [runHits, stageTrace, List.map_cons, burstPattern, ihm, hmb]
    · rw [runHits, stageTrace, List.map_cons, dustPattern, ihd, hdc]

/-- Witness for C3: a fresh 400-health building hit by a direct 120 nuke hit
followed by a 200 hit; stages go `0 → 1 → 3` with one burst per crossing. -/
theorem damageStage_monotone_bursts_witness :
    List.Chain' (· ≤ ·)
      ((⟨400, 400, 1, 0, 0, BuildingState.alive, false⟩ : Building).damageStage ::
        stageTrace ⟨400, 400, 1, 0, 0, BuildingState.alive, false⟩
          [⟨120, 0, 200, false⟩, ⟨200, 0, 200, false⟩]) ∧
    (runHits ⟨400, 400, 1, 0, 0, BuildingState.alive, false⟩
        [⟨120, 0, 200, false⟩, ⟨200, 0, 200, false⟩]).2.map DamageFx.microBursts
      = burstPattern 0 (stageTrace ⟨400, 400, 1, 0, 0, BuildingState.alive, false⟩
          [⟨120, 0, 200, false⟩, ⟨200, 0, 200, false⟩]) ∧
    (runHits ⟨400, 400, 1, 0, 0, BuildingState.alive, false⟩
        [⟨120, 0, 200, false⟩, ⟨200, 0, 200, false⟩]).2.map DamageFx.dustClouds
      = dustPattern 0 (stageTrace ⟨400, 400, 1, 0, 0, BuildingState.alive, false⟩
          [⟨120, 0, 200, false⟩, ⟨200, 0, 200, false⟩]) :=
  damageStage_monotone_bursts ⟨400, 400, 1, 0, 0, BuildingState.alive, false⟩
    [⟨120, 0, 200, false⟩, ⟨200, 0, 200, false⟩]
    (by constructor
        · show (0:ℕ) = damageStageOf ((400:ℚ) / 400)
          norm_num [damageStageOf]
        · norm_num)
    (by intro x hx
        simp only [List.mem_cons, List.mem_singleton] at hx
        rcases hx with h | h | h <;> first | (subst h; norm_num) | cases h)

/-- Per-building damage application of `NuclearBomb.explode`
(src/game.js:3018-3045): buildings whose center lies within the damage
radius 200 receive `takeDamage(120 * (1 - d/200)^3, d, 200)` — the cubic
falloff is computed here and the same distance is passed on to
`Building.takeDamage`, which applies its own cubic falloff again. -/
def nukeHitBuilding (b : Building) (distance : ℚ) (rl : Bool) : Building × DamageFx :=
  if b.state = BuildingState.collapsed then (b, DamageFx.silent)
  else if distance < 200 then
    let normalizedDist := distance / 200
    let nukeFalloff := (1 - normalizedDist) ^ 3
    b.takeDamage (120 * nukeFalloff) distance 200 rl
  else (b, DamageFx.silent)

/-- Counterexample to C4: at distance 100 from the blast center, a fresh
400-health building with unit resistance loses `120 * (1/2)^6 = 15/8` health,
not the claimed `120 * (1/2)^3 = 15`. -/
theorem nuke_single_falloff_counterexample :
    (nukeHitBuilding ⟨400, 400, 1, 0, 0, BuildingState.alive, false⟩ 100 false).1.health
      ≠ 400 - 120 * (1 - 100 / 200) ^ 3 * 1 := by
  have hne : BuildingState.alive ≠ BuildingState.collapsed := by intro h; cases h
  norm_num [nukeHitBuilding, Building.takeDamage, falloff, damageStageOf, hne]

/-- Claim C4 (amended): for a hit at distance `0 < d < 200` on a
non-collapsed building, the cubic falloff is applied twice — once in
`NuclearBomb.explode` and once more inside `Building.takeDamage` — so the
health reduction is `120 * ((1 - d/200)^3)^2 * materialResistance`
(clamped at zero health). -/
theorem nuke_double_falloff (b : Building) (d : ℚ) (rl : Bool)
    (hst : ¬b.state = BuildingState.collapsed) (hd : b.destroyed = false)
    (h0 : 0 < d) (h200 : d < 200) :
    (nukeHitBuilding b d rl).1.health
      = max 0 (b.health - 120 * ((1 - d / 200) ^ 3) ^ 2 * b.materialResistance) := by
  have hdiv : d / 200 ≤ 1 := by
    rw [div_le_one (by norm_num : (0:ℚ) < 200)]
    exact h200.le
  have hmin : min 1 (d / 200) = d / 200 := min_eq_right hdiv
  have hAB : 120 * (1 - d / 200) ^ 3 * b.materialResistance * (1 - d / 200) ^ 3
      = 120 * ((1 - d / 200) ^ 3) ^ 2 * b.materialResistance := by ring
  unfold nukeHitBuilding Building.takeDamage falloff
  rw [if_neg hst, if_pos h200, hd]
  simp only [Bool.false_eq_true, if_false, hmin]
  rw [if_pos (⟨h0, by norm_num⟩ : 0 < d ∧ (0:ℚ) < 200)]
  split <;> rename_i hclamp
  · dsimp only
    rw [eq_comm, max_eq_left]
    linarith [hAB, hclamp]
  · dsimp only
    rw [eq_comm, max_eq_right]
    · linarith [hAB]
    · linarith [hAB, hclamp]

/-- Witness for C4 (amended) at distance 100 on a fresh 400-health building:
health drops by exactly `15/8`. -/
theorem nuke_double_falloff_witness :
    (nukeHitBuilding ⟨400, 400, 1, 0, 0, BuildingState.alive, false⟩ 100 false).1.health
      = max 0 (400 - 120 * ((1 - 100 / 200) ^ 3) ^ 2 * 1) :=
  nuke_double_falloff ⟨400, 400, 1, 0, 0, BuildingState.alive, false⟩ 100 false
    (by decide) rfl (by norm_num) (by norm_num)

/-- The building of the spec's nuclear-strike scenario:
`health = maxHealth = 400`, `materialResistance = 1`, stage 0, alive. -/
def nukeScenarioBuilding : Building :=
  ⟨400, 400, 1, 0, 0, BuildingState.alive, false⟩

/-- Claim C5: a nuclear explosion (base damage 120, damage radius 200)
detonating at distance 0 from the center of a 400-health building with unit
resistance leaves it at health 280, and its damage stage transitions from
0 to 1 (`280/400 = 0.70` lies in the 51-75% band). -/
theorem nuclear_strike_scenario :
    (nukeHitBuilding nukeScenarioBuilding 0 false).1.health = 280 ∧
    nukeScenarioBuilding.damageStage = 0 ∧
    (nukeHitBuilding nukeScenarioBuilding 0 false).1.previousDamageStage = 0 ∧
    (nukeHitBuilding nukeScenarioBuilding 0 false).1.damageStage = 1 := by
  have hne : BuildingState.alive ≠ BuildingState.collapsed := by intro h; cases h
  norm_num [nukeScenarioBuilding, nukeHitBuilding, Building.takeDamage, falloff,
    damageStageOf, hne]

/-- Bridge segment states (src/game.js:5750,
`'intact' | 'damaged' | 'broken' | 'dynamic'`). -/
inductive SegmentState
  | intact
  | damaged
  | broken
  | dynamic
deriving DecidableEq, Repr, Inhabited

/-- Fields of `BridgeSegment` (src/game.js:5735-5775) relevant to fracture:
health, randomized `maxHealth` (80-120), state, and the kinematic flag. The
segment's `index` is its position in the owning bridge's `segments` array. -/
structure BridgeSegment where
  health : ℚ
  maxHealth : ℚ
  state : SegmentState
  isKinematic : Bool
deriving DecidableEq, Repr, Inhabited

/-- Translation of `BridgeSegment.takeDamage(damage)` (src/game.js:5777-5786)
minus the `onSegmentBroken` notification, which the returned flag requests:
`true` means health reached 0 and the owning bridge must be notified. -/
def BridgeSegment.takeDamageStep (seg : BridgeSegment) (damage : ℚ) :
    BridgeSegment × Bool :=
  if seg.state = SegmentState.broken ∨ seg.state = SegmentState.dynamic then (seg, false)
  else
    let newHealth := seg.health - damage
    if newHealth ≤ 0 then
      ({ seg with health := 0, state := SegmentState.broken }, true)
    else if newHealth < seg.maxHealth * (1 / 2) then
      ({ seg with health := newHealth, state := SegmentState.damaged }, false)
    else
      ({ seg with health := newHealth }, false)

/-- Translation of `BridgeSegment.makeDynamic` (src/game.js:5940-5948): a
kinematic segment starts physics simulation and its state becomes
`'dynamic'` (impulse/torque arguments only affect velocities, not modelled). -/
def BridgeSegment.makeDynamic (seg : BridgeSegment) : BridgeSegment :=
  if seg.isKinematic then
    { seg with isKinematic := false, state := SegmentState.dynamic }
  else seg

/-- Fields of `Bridge` (src/game.js:5951-6050) relevant to the claims: the
ordered segment list, the sway oscillator's active flag, the queued
destruction sequence of `(segment index, breakTime)` pairs, and the two
tower health values. -/
structure Bridge where
  segments : List BridgeSegment
  swayActive : Bool
  destructionSequence : List (ℕ × ℚ)
  leftTowerHealth : ℚ
  rightTowerHealth : ℚ
deriving DecidableEq, Repr

/-- Translation of `Bridge.scheduleProgressiveDestruction(triggerIndex)`
(src/game.js:6189-6215).  `breakDelay` is the random draw
`200 + Math.random()*400` and `breakCount` the random draw
`3 + Math.floor(Math.random()*4)`; `now` is `Date.now()` at the trigger. -/
def scheduleProgressiveDestruction (segments : List BridgeSegment)
    (triggerIndex : ℕ) (breakDelay : ℚ) (breakCount : ℕ) (now : ℚ) :
    List (ℕ × ℚ) :=
  let middleIndex := segments.length / 2
  if ((triggerIndex : ℤ) - middleIndex).natAbs ≤ 1 then
    (List.range breakCount).filterMap fun (i : ℕ) =>
      let targetIndex : ℤ := (triggerIndex : ℤ) + ((i : ℤ) - (breakCount / 2 : ℕ))
      if 0 ≤ targetIndex ∧ targetIndex < segments.length then
        let st := (segments.getD targetIndex.toNat default).state
        if ¬st = SegmentState.broken ∧ ¬st = SegmentState.dynamic then
          some (targetIndex.toNat, now + (breakDelay + (i : ℚ) * 100))
        else none
      else none
  else []

/-- Translation of `Bridge.onSegmentBroken(segment)` (src/game.js:6080-6138):
start the sway oscillation if the broken segment is within one position of
the midpoint and sway is dormant, make the segment dynamic, and append the
progressive-destruction schedule (joint breaking and debris spawning are
cosmetic and not modelled). -/
def Bridge.onSegmentBroken (br : Bridge) (segmentIndex : ℕ)
    (breakDelay : ℚ) (breakCount : ℕ) (now : ℚ) : Bridge :=
  let middleIndex := br.segments.length / 2
  let isMiddle := ((segmentIndex : ℤ) - middleIndex).natAbs ≤ 1
  let sway := if isMiddle ∧ ¬br.swayActive then true else br.swayActive
  let segments1 :=
    br.segments.set segmentIndex (br.segments.getD segmentIndex default).makeDynamic
  let sched := scheduleProgressiveDestruction segments1 segmentIndex breakDelay breakCount now
  { br with
      swayActive := sway
      segments := segments1
      destructionSequence := br.destructionSequence ++ sched }

/-- A `segment.takeDamage(damage)` call on segment `idx` of a bridge,
combining `BridgeSegment.takeDamage` (src/game.js:5777-5786) with the
`onSegmentBroken` notification it issues when health reaches 0. -/
def Bridge.damageSegment (br : Bridge) (idx : ℕ) (damage breakDelay : ℚ)
    (breakCount : ℕ) (now : ℚ) : Bridge :=
  let res := (br.segments.getD idx default).takeDamageStep damage
  let br1 := { br with segments := br.segments.set idx res.1 }
  if res.2 then br1.onSegmentBroken idx breakDelay breakCount now else br1

/-- The firing test of `Bridge.update` on a queued destruction entry
(src/game.js:6256-6257): the forced break happens once
`currentTime >= item.breakTime`. -/
def destructionDue (currentTime : ℚ) (entry : ℕ × ℚ) : Bool :=
  decide (entry.2 ≤ currentTime)

theorem getD_set_self {α : Type _} (l : List α) (i : ℕ) (a d : α)
    (h : i < l.length) : (l.set i a).getD i d = a := by
  rw [List.getD_eq_getElem?_getD, List.getElem?_set_self', List.getElem?_eq_getElem h]
  rfl

theorem onSegmentBroken_swayActive (br : Bridge) (i : ℕ) (bd : ℚ) (bc : ℕ) (now : ℚ) :
    (br.onSegmentBroken i bd bc now).swayActive
      = if ((i : ℤ) - (br.segments.length / 2 : ℕ)).natAbs ≤ 1 ∧ ¬br.swayActive
        then true else br.swayActive := rfl

theorem onSegmentBroken_segments (br : Bridge) (i : ℕ) (bd : ℚ) (bc : ℕ) (now : ℚ) :
    (br.onSegmentBroken i bd bc now).segments
      = br.segments.set i (br.segments.getD i default).makeDynamic := rfl

/-- An 8-segment bridge of identical fresh 100-health segments, used as the
concrete scenario bridge. -/
def demoBridge : Bridge :=
  ⟨List.replicate 8 ⟨100, 100, SegmentState.intact, true⟩, false, [], 100, 100⟩

theorem takeDamageStep_fresh60 :
    BridgeSegment.takeDamageStep ⟨100, 100, SegmentState.intact, true⟩ 60
      = (⟨40, 100, SegmentState.damaged, true⟩, false) := by
  unfold BridgeSegment.takeDamageStep
  rw [if_neg (by decide), if_neg (by norm_num), if_pos (by norm_num)]
  norm_num

theorem takeDamageStep_damaged60 :
    BridgeSegment.takeDamageStep ⟨40, 100, SegmentState.damaged, true⟩ 60
      = (⟨0, 100, SegmentState.broken, true⟩, true) := by
  unfold BridgeSegment.takeDamageStep
  rw [if_neg (by decide), if_pos (by norm_num)]

theorem damageSegment_first_hit (br : Bridge) (idx : ℕ) (bd : ℚ) (bc : ℕ) (now : ℚ)
    (hseg : br.segments.getD idx default = ⟨100, 100, SegmentState.intact, true⟩) :
    br.damageSegment idx 60 bd bc now
      = { br with segments := br.segments.set idx ⟨40, 100, SegmentState.damaged, true⟩ } := by
  unfold Bridge.damageSegment
  rw [hseg, takeDamageStep_fresh60]
  rfl

theorem damageSegment_second_hit (br : Bridge) (idx : ℕ) (bd : ℚ) (bc : ℕ) (now : ℚ)
    (hseg : br.segments.getD idx default = ⟨40, 100, SegmentState.damaged, true⟩) :
    br.damageSegment idx 60 bd bc now
      = ({ br with segments := br.segments.set idx ⟨0, 100, SegmentState.broken, true⟩
          } : Bridge).onSegmentBroken idx bd bc now := by
  unfold Bridge.damageSegment
  rw [hseg, takeDamageStep_damaged60]
  rfl

theorem two_hits_segments (br : Bridge) (idx : ℕ) (bd : ℚ) (bc : ℕ) (now : ℚ)
    (hidx : idx < br.segments.length)
    (hseg : br.segments.getD idx default = ⟨100, 100, SegmentState.intact, true⟩) :
    ((br.damageSegment idx 60 bd bc now).damageSegment idx 60 bd bc now).segments
      = br.segments.set idx ⟨0, 100, SegmentState.dynamic, false⟩ := by
  rw [damageSegment_first_hit br idx bd bc now hseg,
    damageSegment_second_hit _ idx bd bc now (getD_set_self _ _ _ _ hidx),
    onSegmentBroken_segments]
  simp only [List.set_set]
  rw [getD_set_self _ _ _ _ hidx]
  rfl

/-- Counterexample to C7: hitting segment 4 (the midpoint) of the demo
bridge twice with `takeDamage(60)` leaves the segment in state `'dynamic'`
(physics-activated by `makeDynamic` inside `onSegmentBroken`), not in the
claimed terminal state `'broken'`. -/
theorem segment_fracture_state_counterexample :
    (((demoBridge.damageSegment 4 60 200 3 0).damageSegment 4 60 200 3 0).segments.getD 4
        default).state ≠ SegmentState.broken := by
  rw [two_hits_segments demoBridge 4 200 3 0 (by norm_num [demoBridge])
      (by norm_num [demoBridge, List.getD]),
    getD_set_self _ _ _ _ (by norm_num [demoBridge])]
  decide

/-- Claim C7 (amended): a fresh 100-health bridge segment hit by
`takeDamage(60)` twice goes to health 40 / state `'damaged'` after the first
hit; the second hit clamps health to 0 and the segment passes through
`'broken'` into the physics-activated state `'dynamic'` (set by
`makeDynamic` during the `onSegmentBroken` notification), and the owning
bridge's sway oscillator is active afterwards whenever the segment's index
is within 1 of the midpoint index. -/
theorem segment_fracture_scenario (br : Bridge) (idx : ℕ) (bd : ℚ) (bc : ℕ) (now : ℚ)
    (hidx : idx < br.segments.length)
    (hseg : br.segments.getD idx default = ⟨100, 100, SegmentState.intact, true⟩) :
    ((br.damageSegment idx 60 bd bc now).segments.getD idx default).health = 40 ∧
    ((br.damageSegment idx 60 bd bc now).segments.getD idx default).state
      = SegmentState.damaged ∧
    (((br.damageSegment idx 60 bd bc now).damageSegment idx 60 bd bc now).segments.getD idx
        default).health = 0 ∧
    (((br.damageSegment idx 60 bd bc now).damageSegment idx 60 bd bc now).segments.getD idx
        default).state = SegmentState.dynamic ∧
    (((idx : ℤ) - (br.segments.length / 2 : ℕ)).natAbs ≤ 1 →
      ((br.damageSegment idx 60 bd bc now).damageSegment idx 60 bd bc now).swayActive
        = true) := by
  have e1 := damageSegment_first_hit br idx bd bc now hseg
  have g1 : (br.damageSegment idx 60 bd bc now).segments.getD idx default
      = ⟨40, 100, SegmentState.damaged, true⟩ := by
    rw [e1]
    exact getD_set_self _ _ _ _ hidx
  have g2 := two_hits_segments br idx bd bc now hidx hseg
  refine ⟨?_, ?_, ?_, ?_, ?_⟩
  · rw [g1]
  · rw [g1]
  · rw [g2, getD_set_self _ _ _ _ hidx]
  · rw [g2, getD_set_self _ _ _ _ hidx]
  · intro hmid
    rw [e1, damageSegment_second_hit _ idx bd bc now (getD_set_self _ _ _ _ hidx),
      onSegmentBroken_swayActive]
    simp only [List.length_set]
    by_cases hsw : br.swayActive
    · simp [hsw]
    · simp only [hsw]
      simp only [not_false_iff, and_true, Bool.not_eq_true]
      rw [if_pos]
      omega

/-- Witness for C7 (amended) on segment 4 of the 8-segment demo bridge. -/
theorem segment_fracture_scenario_witness :
    ((demoBridge.damageSegment 4 60 200 3 0).segments.getD 4 default).health = 40 ∧
    ((demoBridge.damageSegment 4 60 200 3 0).segments.getD 4 default).state
      = SegmentState.damaged ∧
    (((demoBridge.damageSegment 4 60 200 3 0).damageSegment 4 60 200 3 0).segments.getD 4
        default).health = 0 ∧
    (((demoBridge.damageSegment 4 60 200 3 0).damageSegment 4 60 200 3 0).segments.getD 4
        default).state = SegmentState.dynamic ∧
    (((4 : ℤ) - (demoBridge.segments.length / 2 : ℕ)).natAbs ≤ 1 →
      ((demoBridge.damageSegment 4 60 200 3 0).damageSegment 4 60 200 3 0).swayActive
        = true) :=
  segment_fracture_scenario demoBridge 4 200 3 0 (by norm_num [demoBridge])
    (by norm_num [demoBridge, List.getD])

theorem onSegmentBroken_destructionSequence (br : Bridge) (i : ℕ) (bd : ℚ)
    (bc : ℕ) (now : ℚ) :
    (br.onSegmentBroken i bd bc now).destructionSequence
      = br.destructionSequence ++
        scheduleProgressiveDestruction
          (br.segments.set i (br.segments.getD i default).makeDynamic) i bd bc now := rfl

/-- Counterexample to C8: breaking segment 0 of the 8-segment demo bridge
(midpoint index 4) is a real segment break — the segment ends up
physics-activated — yet `scheduleProgressiveDestruction` returns early for
non-middle breaks and queues nothing. -/
theorem cascade_nonmiddle_counterexample :
    ((demoBridge.damageSegment 0 200 300 3 0).segments.getD 0 default).state
      = SegmentState.dynamic ∧
    (demoBridge.damageSegment 0 200 300 3 0).destructionSequence = [] := by
  have h0 : BridgeSegment.takeDamageStep ⟨100, 100, SegmentState.intact, true⟩ 200
      = (⟨0, 100, SegmentState.broken, true⟩, true) := by
    unfold BridgeSegment.takeDamageStep
    rw [if_neg (by decide), if_pos (by norm_num)]
  have e0 : demoBridge.damageSegment 0 200 300 3 0
      = ({ demoBridge with
            segments := demoBridge.segments.set 0 ⟨0, 100, SegmentState.broken, true⟩ }
          : Bridge).onSegmentBroken 0 300 3 0 := by
    unfold Bridge.damageSegment
    rw [show demoBridge.segments.getD 0 default = ⟨100, 100, SegmentState.intact, true⟩ by
      norm_num [demoBridge, List.getD], h0]
    rfl
  constructor
  · rw [e0, onSegmentBroken_segments]
    rw [getD_set_self _ _ _ _ (by norm_num [demoBridge])]
    simp only [List.set_set]
    rw [getD_set_self _ _ _ _ (by norm_num [demoBridge])]
    rfl
  · rw [e0, onSegmentBroken_destructionSequence]
    have hsched : scheduleProgressiveDestruction
        ((demoBridge.segments.set 0 ⟨0, 100, SegmentState.broken, true⟩).set 0
          (((demoBridge.segments.set 0 ⟨0, 100, SegmentState.broken, true⟩).getD 0
            default).makeDynamic)) 0 300 3 0 = [] := by
      simp only [scheduleProgressiveDestruction]
      rw [if_neg (by norm_num [demoBridge])]
    rw [show (({ demoBridge with
          segments := demoBridge.segments.set 0 ⟨0, 100, SegmentState.broken, true⟩ }
          : Bridge).destructionSequence) = [] from rfl]
    rw [List.nil_append]
    exact hsched

/-- Claim C8 (amended): the delayed cascade is scheduled only when the
breaking segment lies within one position of the bridge midpoint
(`scheduleProgressiveDestruction` returns early otherwise); whenever
entries are scheduled, their break timestamps are strictly increasing,
strictly in the future, not yet due at the triggering tick, and never
target the triggering segment itself. -/
theorem cascade_schedule_spec (segments : List BridgeSegment) (triggerIndex : ℕ)
    (breakDelay : ℚ) (breakCount : ℕ) (now : ℚ)
    (hbd : 200 ≤ breakDelay)
    (htrig : (segments.getD triggerIndex default).state = SegmentState.broken ∨
      (segments.getD triggerIndex default).state = SegmentState.dynamic) :
    List.Pairwise (fun a b : ℕ × ℚ => a.2 < b.2)
      (scheduleProgressiveDestruction segments triggerIndex breakDelay breakCount now) ∧
    (∀ e ∈ scheduleProgressiveDestruction segments triggerIndex breakDelay breakCount now,
      now < e.2 ∧ destructionDue now e = false ∧ e.1 ≠ triggerIndex) ∧
    (¬((triggerIndex : ℤ) - (segments.length / 2 : ℕ)).natAbs ≤ 1 →
      scheduleProgressiveDestruction segments triggerIndex breakDelay breakCount now
        = []) := by
  simp only [scheduleProgressiveDestruction]
  by_cases hmid : ((triggerIndex : ℤ) - (segments.length / 2 : ℕ)).natAbs ≤ 1
  · rw [if_pos hmid]
    refine ⟨?_, ?_, fun hc => absurd hmid hc⟩
    · refine (List.pairwise_lt_range breakCount).filterMap _ ?_
      intro i j hij e he e' he'
      simp only [Option.mem_def] at he he'
      split_ifs at he he' with h1 h2 h3 h4
      all_goals simp only [Option.some.injEq, reduceCtorEq] at he he'
      subst he
      subst he'
      have hcast : (i : ℚ) < (j : ℚ) := by exact_mod_cast hij
      show now + (breakDelay + (i : ℚ) * 100) < now + (breakDelay + (j : ℚ) * 100)
      linarith
    · intro e he
      rw [List.mem_filterMap] at he
      obtain ⟨i, hi, hfi⟩ := he
      split_ifs at hfi with h1 h2
      all_goals simp only [Option.some.injEq, reduceCtorEq] at hfi
      subst hfi
      have hi100 : (0:ℚ) ≤ (i : ℚ) * 100 := by positivity
      refine ⟨by dsimp only; linarith, ?_, ?_⟩
      · unfold destructionDue
        dsimp only
        rw [decide_eq_false_iff_not]
        intro hle
        linarith
      · intro heq
        have heq' : ((triggerIndex : ℤ) + ((i : ℤ) - (breakCount / 2 : ℕ))).toNat
            = triggerIndex := heq
        rw [heq'] at h2
        rcases htrig with hb | hdyn
        · exact h2.1 hb
        · exact h2.2 hdyn
  · rw [if_neg hmid]
    exact ⟨List.Pairwise.nil, fun e he => absurd he (List.not_mem_nil e), fun _ => rfl⟩

/-- Witness for C8 (amended): breaking the exact middle segment (index 4) of
the 8-segment demo bridge after it has become dynamic. -/
theorem cascade_schedule_spec_witness :
    List.Pairwise (fun a b : ℕ × ℚ => a.2 < b.2)
      (scheduleProgressiveDestruction
        (demoBridge.segments.set 4 ⟨0, 100, SegmentState.dynamic, false⟩) 4 250 3 1000) ∧
    (∀ e ∈ scheduleProgressiveDestruction
        (demoBridge.segments.set 4 ⟨0, 100, SegmentState.dynamic, false⟩) 4 250 3 1000,
      1000 < e.2 ∧ destructionDue 1000 e = false ∧ e.1 ≠ 4) ∧
    (¬((4 : ℤ) - ((demoBridge.segments.set 4
        ⟨0, 100, SegmentState.dynamic, false⟩).length / 2 : ℕ)).natAbs ≤ 1 →
      scheduleProgressiveDestruction
        (demoBridge.segments.set 4 ⟨0, 100, SegmentState.dynamic, false⟩) 4 250 3 1000
        = []) :=
  cascade_schedule_spec (demoBridge.segments.set 4 ⟨0, 100, SegmentState.dynamic, false⟩)
    4 250 3 1000 (by norm_num)
    (Or.inr (by rw [getD_set_self _ _ _ _ (by norm_num [demoBridge])]))

/-- A sticky bomb (src/game.js:3300-3330) as seen by
`detonateAllStickyBombs`.  The source stores a position `(x, y)` and
computes `sqrt`-distances to each building's center, each bridge segment's
center and the two towers; the model carries those derived distances
directly (`buildingDists[j]` is the distance to building `j`). -/
structure StickyBomb where
  isArmed : Bool
  active : Bool
  buildingDists : List ℚ
  segmentDists : List ℚ
  leftTowerDist : ℚ
  rightTowerDist : ℚ
deriving DecidableEq, Repr

/-- First-pass contribution of one bomb to one building in
`detonateAllStickyBombs` (src/game.js:3397-3436): armed bombs within the
damage radius of a non-collapsed building contribute
`min((1 - d/radius)^3 * 60, 50)` to that building's accumulated damage. -/
def stickyDamageEntry (radius : ℚ) (b : Building) (sb : StickyBomb) (j : ℕ) :
    Option ℚ :=
  if sb.isArmed = true ∧ ¬b.state = BuildingState.collapsed ∧
      sb.buildingDists.getD j 0 < radius then
    some (min ((1 - sb.buildingDists.getD j 0 / radius) ^ 3 * 60) 50)
  else none

/-- Accumulated first-pass damage for building `j`
(the `buildingDamageMap` entry, src/game.js:3423-3427). -/
def stickyTotal (bombs : List StickyBomb) (radius : ℚ) (b : Building) (j : ℕ) : ℚ :=
  (bombs.filterMap fun sb => stickyDamageEntry radius b sb j).sum

/-- Whether `buildingDamageMap` has an entry for building `j`. -/
def stickyHasEntry (bombs : List StickyBomb) (radius : ℚ) (b : Building) (j : ℕ) :
    Bool :=
  bombs.any fun sb => (stickyDamageEntry radius b sb j).isSome

/-- Third pass of `detonateAllStickyBombs` (src/game.js:3446-3458): each
building with a damage-map entry receives
`takeDamage(min(totalDamage, 85))` — distance defaults to 0, so no further
falloff is applied in `takeDamage`. -/
def applyStickyDamage (bombs : List StickyBomb) (radius : ℚ) (rl : Bool) :
    ℕ → List Building → List Building
  | _, [] => []
  | j, b :: bs =>
    (if stickyHasEntry bombs radius b j = true ∧ ¬b.state = BuildingState.collapsed then
      (b.takeDamage (min (stickyTotal bombs radius b j) 85) 0 150 rl).1
    else b) :: applyStickyDamage bombs radius rl (j + 1) bs

/-- Translation of `Bridge.takeDamage(intensity, x, y, damageRadius)`
(src/game.js:6331-6372): every non-broken segment within the radius takes
`intensity * (1 - d/radius)^2` (possibly notifying `onSegmentBroken`), and
each tower within the radius loses `intensity * falloff * 0.1` health
(unclamped in this path). -/
def Bridge.takeDamage (br : Bridge) (intensity : ℚ) (segDists : List ℚ)
    (leftDist rightDist damageRadius breakDelay : ℚ) (breakCount : ℕ) (now : ℚ) :
    Bridge :=
  let br1 := (List.range br.segments.length).foldl
    (fun acc i =>
      if (acc.segments.getD i default).state = SegmentState.broken then acc
      else if segDists.getD i 0 < damageRadius then
        acc.damageSegment i (intensity * (1 - segDists.getD i 0 / damageRadius) ^ 2)
          breakDelay breakCount now
      else acc) br
  let br2 :=
    if leftDist < damageRadius then
      { br1 with leftTowerHealth :=
          br1.leftTowerHealth - intensity * (1 - leftDist / damageRadius) ^ 2 * (1 / 10) }
    else br1
  if rightDist < damageRadius then
    { br2 with rightTowerHealth :=
        br2.rightTowerHealth - intensity * (1 - rightDist / damageRadius) ^ 2 * (1 / 10) }
  else br2

/-- Translation of `detonateAllStickyBombs()` (src/game.js:3385-3480).
Pass 1 accumulates per-building damage from the still-armed bombs; pass 2
reactivates inactive bombs, pushes explosion visuals and clears every
`isArmed` flag; pass 3 applies the accumulated damage capped at 85 per
building; pass 4 (City 2 only) iterates the bombs again to damage the
bridge, but filters on `isArmed`; finally `stickyBombs = []`.  Returns the
new bomb list, building list and bridge. -/
def detonateAllStickyBombs (bombs : List StickyBomb) (blds : List Building)
    (br : Bridge) (currentCityId : ℕ) (damageRadius : ℚ) (rl : Bool)
    (breakDelay : ℚ) (breakCount : ℕ) (now : ℚ) :
    List StickyBomb × List Building × Bridge :=
  let blds' := applyStickyDamage bombs damageRadius rl 0 blds
  let bombs2 := bombs.map fun sb =>
    if sb.isArmed = true then { sb with active := true, isArmed := false } else sb
  let br' :=
    if currentCityId = 2 then
      bombs2.foldl
        (fun acc sb =>
          if sb.isArmed = true then
            acc.takeDamage 60 sb.segmentDists sb.leftTowerDist sb.rightTowerDist
              damageRadius breakDelay breakCount now
          else acc) br
    else br
  ([], blds', br')

theorem foldl_skip_unarmed (f : Bridge → StickyBomb → Bridge)
    (l : List StickyBomb) (acc : Bridge) (h : ∀ sb ∈ l, sb.isArmed = false) :
    l.foldl (fun acc sb => if sb.isArmed = true then f acc sb else acc) acc = acc := by
  induction l generalizing acc with
  | nil => rfl
  | cons sb rest ih =>
    rw [List.foldl_cons, if_neg]
    · exact ih acc fun x hx => h x (List.mem_cons_of_mem sb hx)
    · rw [h sb (List.mem_cons_self sb rest)]
      exact Bool.false_ne_true

/-- Claim C10: `detonateAllStickyBombs` never damages a bridge — the second
pass clears every bomb's `isArmed` flag before the bridge-damage pass runs,
and that pass skips unarmed bombs — and the returned sticky-bomb list is
empty. -/
theorem detonateAllStickyBombs_bridge_unchanged (bombs : List StickyBomb)
    (blds : List Building) (br : Bridge) (cityId : ℕ) (radius : ℚ) (rl : Bool)
    (bd : ℚ) (bc : ℕ) (now : ℚ) :
    (detonateAllStickyBombs bombs blds br cityId radius rl bd bc now).1 = [] ∧
    (detonateAllStickyBombs bombs blds br cityId radius rl bd bc now).2.2 = br := by
  refine ⟨rfl, ?_⟩
  show (if cityId = 2 then _ else br) = br
  split
  · refine foldl_skip_unarmed _ _ br fun sb hsb => ?_
    rw [List.mem_map] at hsb
    obtain ⟨sb0, _, hmap⟩ := hsb
    by_cases ha : sb0.isArmed = true
    · rw [if_pos ha] at hmap
      rw [← hmap]
    · rw [if_neg ha] at hmap
      rw [← hmap]
      exact Bool.not_eq_true _ |>.mp ha
  · rfl

theorem stickyDamageEntry_nonneg {radius : ℚ} (hr : 0 < radius) {b : Building}
    {sb : StickyBomb} {j : ℕ} (hd : 0 ≤ sb.buildingDists.getD j 0) {x : ℚ}
    (hx : stickyDamageEntry radius b sb j = some x) : 0 ≤ x := by
  unfold stickyDamageEntry at hx
  split_ifs at hx with hc
  · rw [Option.some_inj] at hx
    subst hx
    have hdr : sb.buildingDists.getD j 0 / radius < 1 := by
      rw [div_lt_one hr]
      exact hc.2.2
    have h1 : 0 < 1 - sb.buildingDists.getD j 0 / radius := by linarith
    have h3 : 0 < (1 - sb.buildingDists.getD j 0 / radius) ^ 3 := pow_pos h1 3
    refine le_min (by nlinarith) (by norm_num)

theorem stickyTotal_nonneg (bombs : List StickyBomb) (radius : ℚ) (b : Building)
    (j : ℕ) (hr : 0 < radius) (hd : ∀ sb ∈ bombs, 0 ≤ sb.buildingDists.getD j 0) :
    0 ≤ stickyTotal bombs radius b j := by
  refine List.sum_nonneg fun x hx => ?_
  rw [List.mem_filterMap] at hx
  obtain ⟨sb, hsb, hx⟩ := hx
  exact stickyDamageEntry_nonneg hr (hd sb hsb) hx

theorem takeDamage_dist0_health (b : Building) (D : ℚ) (rl : Bool)
    (hdest : b.destroyed = false)
    (hpos : ¬b.health - D * b.materialResistance ≤ 0) :
    (b.takeDamage D 0 150 rl).1.health = b.health - D * b.materialResistance := by
  unfold Building.takeDamage
  rw [hdest]
  simp only [Bool.false_eq_true, if_false]
  rw [if_neg (by norm_num : ¬((0:ℚ) < 0 ∧ (0:ℚ) < 150)), if_neg hpos]

/-- Bombs of the sticky-bomb scenario: armed, directly on the target
building (distance 0). -/
def stickyDemoBomb : StickyBomb := ⟨true, true, [0], [], 1000, 1000⟩

/-- Five armed bombs, all within lethal radius of the one building. -/
def stickyDemoBombs : List StickyBomb :=
  [stickyDemoBomb, stickyDemoBomb, stickyDemoBomb, stickyDemoBomb, stickyDemoBomb]

/-- The scenario building: 300 health, `materialResistance = 1.2`
(inside the constructor's 0.7-1.3 range, src/game.js:544). -/
def stickyDemoBuilding : Building := ⟨300, 300, 6/5, 0, 0, BuildingState.alive, false⟩

/-- Counterexample to C6: with `materialResistance = 1.2`, the capped damage
of 85 passed to `takeDamage` is multiplied by the resistance, so the
building's health drops to `300 - 85*1.2 = 198 < 215`. -/
theorem sticky_cap_counterexample :
    ((detonateAllStickyBombs stickyDemoBombs [stickyDemoBuilding] demoBridge 1 100 false
        200 3 0).2.1.map Building.health) = [198] ∧ ¬(215 : ℚ) ≤ 198 := by
  have hentry : stickyDamageEntry 100 stickyDemoBuilding stickyDemoBomb 0 = some 50 := by
    unfold stickyDamageEntry
    rw [if_pos]
    · norm_num [stickyDemoBomb, List.getD]
    · refine ⟨rfl, by decide, ?_⟩
      norm_num [stickyDemoBomb, List.getD]
  have htotal : stickyTotal stickyDemoBombs 100 stickyDemoBuilding 0 = 250 := by
    simp [stickyTotal, stickyDemoBombs, hentry]
    norm_num
  have hhas : stickyHasEntry stickyDemoBombs 100 stickyDemoBuilding 0 = true := by
    simp [stickyHasEntry, stickyDemoBombs, hentry]
  have htd : (stickyDemoBuilding.takeDamage 85 0 150 false).1.health = 198 := by
    rw [takeDamage_dist0_health _ _ _ rfl (by norm_num [stickyDemoBuilding])]
    norm_num [stickyDemoBuilding]
  have happly : applyStickyDamage stickyDemoBombs 100 false 0 [stickyDemoBuilding]
      = [(stickyDemoBuilding.takeDamage 85 0 150 false).1] := by
    unfold applyStickyDamage
    rw [if_pos ⟨hhas, by decide⟩, htotal]
    norm_num
    rfl
  refine ⟨?_, by norm_num⟩
  show (applyStickyDamage stickyDemoBombs 100 false 0 [stickyDemoBuilding]).map
      Building.health = [198]
  rw [happly, List.map_cons, List.map_nil, htd]

/-- Claim C6 (amended): five sticky bombs within lethal radius of one
300-health building deliver a total `takeDamage` argument capped at 85, and
the resulting health reduction is that cap times the building's
`materialResistance`; since the constructor draws the resistance from
`[0.7, 1.3)`, the post-detonation health exceeds `300 - 85*1.3 = 189.5`
(so the building never reaches 0 from one batch), and the claimed bound
`health ≥ 215` holds exactly when `materialResistance ≤ 1`. -/
theorem sticky_cap_spec (bombs : List StickyBomb) (b : Building) (br : Bridge)
    (cityId : ℕ) (radius : ℚ) (rl : Bool) (bd : ℚ) (bc : ℕ) (now : ℚ)
    (hr : 0 < radius) (hd : ∀ sb ∈ bombs, 0 ≤ sb.buildingDists.getD 0 0)
    (hh : b.health = 300) (hdest : b.destroyed = false)
    (hres0 : 0 ≤ b.materialResistance) (hres2 : b.materialResistance < 13/10) :
    ∃ b', (detonateAllStickyBombs bombs [b] br cityId radius rl bd bc now).2.1 = [b'] ∧
      300 - 85 * b.materialResistance ≤ b'.health ∧
      (379/2 : ℚ) < b'.health ∧ 0 < b'.health ∧
      (b.materialResistance ≤ 1 → 215 ≤ b'.health) := by
  have happly : (detonateAllStickyBombs bombs [b] br cityId radius rl bd bc now).2.1
      = [if stickyHasEntry bombs radius b 0 = true ∧ ¬b.state = BuildingState.collapsed
         then (b.takeDamage (min (stickyTotal bombs radius b 0) 85) 0 150 rl).1
         else b] := rfl
  by_cases hc : stickyHasEntry bombs radius b 0 = true ∧ ¬b.state = BuildingState.collapsed
  · have h0 : 0 ≤ stickyTotal bombs radius b 0 := stickyTotal_nonneg bombs radius b 0 hr hd
    have hD0 : 0 ≤ min (stickyTotal bombs radius b 0) 85 := le_min h0 (by norm_num)
    have hD85 : min (stickyTotal bombs radius b 0) 85 ≤ 85 := min_le_right _ _
    have hDres : min (stickyTotal bombs radius b 0) 85 * b.materialResistance
        ≤ 85 * b.materialResistance := mul_le_mul_of_nonneg_right hD85 hres0
    have hres85 : 85 * b.materialResistance < 221/2 := by linarith
    have hpos : ¬b.health - min (stickyTotal bombs radius b 0) 85 * b.materialResistance
        ≤ 0 := by
      rw [hh]
      intro hneg
      linarith
    refine ⟨(b.takeDamage (min (stickyTotal bombs radius b 0) 85) 0 150 rl).1, ?_, ?_, ?_, ?_, ?_⟩
    · rw [happly, if_pos hc]
    · rw [takeDamage_dist0_health _ _ _ hdest hpos, hh]
      linarith
    · rw [takeDamage_dist0_health _ _ _ hdest hpos, hh]
      linarith
    · rw [takeDamage_dist0_health _ _ _ hdest hpos, hh]
      linarith
    · intro hres1
      have : min (stickyTotal bombs radius b 0) 85 * b.materialResistance ≤ 85 := by
        calc min (stickyTotal bombs radius b 0) 85 * b.materialResistance
            ≤ 85 * b.materialResistance := hDres
          _ ≤ 85 * 1 := by linarith
          _ = 85 := by norm_num
      rw [takeDamage_dist0_health _ _ _ hdest hpos, hh]
      linarith
  · refine ⟨b, by rw [happly, if_neg hc], ?_, ?_, ?_, ?_⟩
    · rw [hh]
      linarith
    · rw [hh]
      norm_num
    · rw [hh]
      norm_num
    · intro
      rw [hh]
      norm_num

/-- Witness for C6 (amended) at the concrete five-bomb scenario with
`materialResistance = 1.2`. -/
theorem sticky_cap_spec_witness :
    ∃ b', (detonateAllStickyBombs stickyDemoBombs [stickyDemoBuilding] demoBridge 1 100
        false 200 3 0).2.1 = [b'] ∧
      300 - 85 * stickyDemoBuilding.materialResistance ≤ b'.health ∧
      (379/2 : ℚ) < b'.health ∧ 0 < b'.health ∧
      (stickyDemoBuilding.materialResistance ≤ 1 → 215 ≤ b'.health) :=
  sticky_cap_spec stickyDemoBombs stickyDemoBuilding demoBridge 1 100 false 200 3 0
    (by norm_num)
    (by intro sb hsb
        simp only [stickyDemoBombs, List.mem_cons, List.not_mem_nil, or_false] at hsb
        rcases hsb with h | h | h | h | h <;> subst h <;> norm_num [stickyDemoBomb, List.getD])
    rfl rfl (by norm_num [stickyDemoBuilding]) (by norm_num [stickyDemoBuilding])

/-- Lifecycle flags of a pooled debris fragment (src/game.js:8680-8724):
`sleeping` set after the settle grace period, `settledTime` recorded when the
fragment comes to rest, `doNotDraw` set by capacity eviction. -/
structure Particle where
  sleeping : Bool
  settledTime : Option ℚ
  doNotDraw : Bool
deriving DecidableEq, Repr, Inhabited

/-- A fragment eligible for eviction: the filter
`p.sleeping && p.settledTime !== null` of src/game.js:8716. -/
def Particle.eligible (p : Particle) : Bool := p.sleeping && p.settledTime.isSome

/-- Sort key used by the eviction sort `(a, b) => a.settledTime - b.settledTime`
(src/game.js:8717) on an index-tagged fragment. -/
def keyOf (x : ℕ × Particle) : ℚ := x.2.settledTime.getD 0

/-- Comparison relation of the eviction sort. -/
def keyLe (x y : ℕ × Particle) : Prop := keyOf x ≤ keyOf y

instance : DecidableRel keyLe := fun x y =>
  inferInstanceAs (Decidable (keyOf x ≤ keyOf y))

instance : IsTotal (ℕ × Particle) keyLe := ⟨fun a b => le_total (keyOf a) (keyOf b)⟩

instance : IsTrans (ℕ × Particle) keyLe := ⟨fun _ _ _ => le_trans⟩

/-- The particle array tagged with array positions, starting at index `i`. -/
def enumFrom : ℕ → List Particle → List (ℕ × Particle)
  | _, [] => []
  | i, p :: ps => (i, p) :: enumFrom (i + 1) ps

/-- The sleeping, settled fragments together with their array positions
(the `sleepingParticles` array of src/game.js:8716). -/
def eligPairs (ps : List Particle) : List (ℕ × Particle) :=
  (enumFrom 0 ps).filter fun x => x.2.eligible

/-- The `sleepingParticles` array after the stable ascending sort by
`settledTime` (src/game.js:8717; `Array.prototype.sort` is stable, and
insertion sort processed in original order is the stable sort). -/
def sortedEligibles (ps : List Particle) : List (ℕ × Particle) :=
  List.insertionSort keyLe (eligPairs ps)

/-- Array positions of the fragments marked `doNotDraw` by the eviction loop
(src/game.js:8720-8723): the first `min(excessCount, sleepingParticles.length)`
entries of the sorted array. -/
def markedIds (ps : List Particle) (excess : ℕ) : List ℕ :=
  ((sortedEligibles ps).take excess).map Prod.fst

/-- Set `doNotDraw := true` on the fragments at the given array positions,
leaving every other field and the array length unchanged. -/
def applyMarks (m : List ℕ) : ℕ → List Particle → List Particle
  | _, [] => []
  | i, p :: ps =>
    (if i ∈ m then { p with doNotDraw := true } else p) :: applyMarks m (i + 1) ps

/-- The per-tick cap step of the main particle pool (src/game.js:8712-8724):
when the pool exceeds `MAX_PARTICLES`, mark the oldest sleeping fragments
(by `settledTime`) as `doNotDraw`, keeping them in the array. -/
def capParticlesTick (maxP : ℕ) (ps : List Particle) : List Particle :=
  if ps.length ≤ maxP then ps
  else applyMarks (markedIds ps (ps.length - maxP)) 0 ps

/-- The per-tick cap step of the splice-capped pools
(`fireParticles`/`buildingDebris`/`microDebris`/`dustParticles`,
src/game.js:8749-8782): `splice(0, length - MAX)` deletes the oldest entries
from the front of the array outright. -/
def capArrayByDeletion {α : Type _} (maxN : ℕ) (l : List α) : List α :=
  if l.length > maxN then l.drop (l.length - maxN) else l

/-- Live fragments: those not evicted (`doNotDraw` unset). -/
def liveCount (ps : List Particle) : ℕ := ps.countP fun p => !p.doNotDraw

theorem enumFrom_length : ∀ (i : ℕ) (ps : List Particle),
    (enumFrom i ps).length = ps.length
  | _, [] => rfl
  | i, _ :: ps => by
    rw [enumFrom, List.length_cons, List.length_cons, enumFrom_length (i + 1) ps]

theorem enumFrom_map_fst : ∀ (i : ℕ) (ps : List Particle),
    (enumFrom i ps).map Prod.fst = List.range' i ps.length
  | _, [] => rfl
  | i, p :: ps => by
    rw [enumFrom, List.map_cons, List.length_cons, List.range'_succ,
      enumFrom_map_fst (i + 1) ps]

theorem mem_enumFrom {x : ℕ × Particle} : ∀ {i : ℕ} {ps : List Particle},
    x ∈ enumFrom i ps →
    i ≤ x.1 ∧ x.1 < i + ps.length ∧ x.2 = ps.getD (x.1 - i) default := by
  intro i ps
  induction ps generalizing i with
  | nil => intro h; exact absurd h (List.not_mem_nil x)
  | cons p ps ih =>
    intro h
    rw [enumFrom, List.mem_cons] at h
    rcases h with h | h
    · subst h
      refine ⟨le_rfl, by simp, ?_⟩
      simp
    · obtain ⟨h1, h2, h3⟩ := ih h
      refine ⟨by omega, by simp; omega, ?_⟩
      rw [h3]
      have hx1 : x.1 - i = (x.1 - (i + 1)) + 1 := by omega
      rw [hx1, List.getD_cons_succ]

theorem applyMarks_length (m : List ℕ) : ∀ (i : ℕ) (ps : List Particle),
    (applyMarks m i ps).length = ps.length
  | _, [] => rfl
  | i, _ :: ps => by
    rw [applyMarks, List.length_cons, List.length_cons, applyMarks_length m (i + 1) ps]

theorem applyMarks_getD (m : List ℕ) : ∀ (i k : ℕ) (ps : List Particle),
    k < ps.length →
    (applyMarks m i ps).getD k default
      = (if (i + k) ∈ m then { ps.getD k default with doNotDraw := true }
         else ps.getD k default) := by
  intro i k ps
  induction ps generalizing i k with
  | nil => intro h; exact absurd h (by simp)
  | cons p ps ih =>
    intro hk
    rw [applyMarks]
    match k with
    | 0 => simp
    | k + 1 =>
      rw [List.getD_cons_succ, List.getD_cons_succ, ih (i + 1) k (by simpa using hk)]
      have : i + 1 + k = i + (k + 1) := by omega
      rw [this]

theorem countP_add_countP_not (p : Particle → Bool) (l : List Particle) :
    l.countP p + l.countP (fun a => !(p a)) = l.length := by
  induction l with
  | nil => rfl
  | cons a l ih =>
    rw [List.countP_cons, List.countP_cons, List.length_cons]
    by_cases hp : p a = true <;> simp [hp] <;> omega

theorem countP_pair_not_add (p : ℕ × Particle → Bool) (l : List (ℕ × Particle)) :
    l.countP p + l.countP (fun a => !(p a)) = l.length := by
  induction l with
  | nil => rfl
  | cons a l ih =>
    rw [List.countP_cons, List.countP_cons, List.length_cons]
    by_cases hp : p a = true <;> simp [hp] <;> omega

theorem liveCount_applyMarks (m : List ℕ) : ∀ (i : ℕ) (ps : List Particle),
    liveCount (applyMarks m i ps)
      = (enumFrom i ps).countP fun x => !x.2.doNotDraw && !(decide (x.1 ∈ m)) := by
  intro i ps
  induction ps generalizing i with
  | nil => rfl
  | cons p ps ih =>
    rw [applyMarks, enumFrom, liveCount, List.countP_cons, List.countP_cons,
      ← liveCount, ih (i + 1)]
    by_cases hm : i ∈ m
    · simp [hm]
    · simp [hm]

theorem countP_mem_enumFrom (m : List ℕ) (ps : List Particle) (hm : m.Nodup)
    (hb : ∀ j ∈ m, j < ps.length) :
    ((enumFrom 0 ps).countP fun x => decide (x.1 ∈ m)) = m.length := by
  have h1 : ((enumFrom 0 ps).countP fun x => decide (x.1 ∈ m))
      = ((enumFrom 0 ps).map Prod.fst).countP fun j => decide (j ∈ m) := by
    rw [List.countP_map]
    rfl
  rw [h1, enumFrom_map_fst]
  have hperm : List.Perm ((List.range' 0 ps.length).filter fun j => decide (j ∈ m)) m := by
    refine (List.perm_ext_iff_of_nodup ((List.nodup_range' 0 ps.length).filter _) hm).mpr ?_
    intro a
    rw [List.mem_filter]
    constructor
    · rintro ⟨_, ha⟩
      simpa using ha
    · intro ha
      refine ⟨?_, by simpa using ha⟩
      rw [List.mem_range'_1]
      exact ⟨Nat.zero_le a, by simpa using hb a ha⟩
  rw [List.countP_eq_length_filter, hperm.length_eq]

theorem markedIds_sublist_aux (ps : List Particle) (excess : ℕ) :
    (markedIds ps excess).Sublist ((sortedEligibles ps).map Prod.fst) :=
  (List.take_sublist excess (sortedEligibles ps)).map Prod.fst

theorem eligPairs_fst_nodup (ps : List Particle) :
    ((eligPairs ps).map Prod.fst).Nodup := by
  have hsub : ((eligPairs ps).map Prod.fst).Sublist ((enumFrom 0 ps).map Prod.fst) :=
    (List.filter_sublist _).map Prod.fst
  rw [enumFrom_map_fst] at hsub
  exact (List.nodup_range' 0 ps.length).sublist hsub

theorem markedIds_nodup (ps : List Particle) (excess : ℕ) :
    (markedIds ps excess).Nodup := by
  have hperm : List.Perm ((sortedEligibles ps).map Prod.fst)
      ((eligPairs ps).map Prod.fst) :=
    (List.perm_insertionSort keyLe (eligPairs ps)).map Prod.fst
  exact ((hperm.nodup_iff).mpr (eligPairs_fst_nodup ps)).sublist
    (markedIds_sublist_aux ps excess)

theorem mem_markedIds (ps : List Particle) (excess : ℕ) {j : ℕ}
    (hj : j ∈ markedIds ps excess) :
    j < ps.length ∧ (ps.getD j default).eligible = true := by
  rw [markedIds, List.mem_map] at hj
  obtain ⟨x, hx, hfst⟩ := hj
  have hx1 : x ∈ sortedEligibles ps := (List.take_sublist excess _).subset hx
  have hx2 : x ∈ eligPairs ps :=
    (List.perm_insertionSort keyLe (eligPairs ps)).subset hx1
  rw [eligPairs, List.mem_filter] at hx2
  obtain ⟨hxe, helig⟩ := hx2
  obtain ⟨h0, hlt, hgetD⟩ := mem_enumFrom hxe
  subst hfst
  refine ⟨by simpa using hlt, ?_⟩
  rw [show x.1 - 0 = x.1 from rfl] at hgetD
  rw [← hgetD]
  exact helig

theorem markedIds_length (ps : List Particle) (excess : ℕ) :
    (markedIds ps excess).length = min excess (eligPairs ps).length := by
  rw [markedIds, List.length_map, List.length_take, sortedEligibles,
    (List.perm_insertionSort keyLe (eligPairs ps)).length_eq]

/-- Counterexample to C9: a pool of three never-settled (hence non-sleeping)
fragments over a cap of 2 stays at a live count of 3 after the cap step —
the eviction loop can only mark sleeping fragments, so the live count
exceeds the cap. -/
theorem pool_cap_counterexample :
    liveCount (capParticlesTick 2 [⟨false, none, false⟩, ⟨false, none, false⟩,
      ⟨false, none, false⟩]) = 3 ∧ ¬(3 : ℕ) ≤ 2 := by
  constructor
  · rfl
  · omega

/-- Claim C9 (amended): the splice-capped pools (fire particles, building
debris, micro-debris, dust) are hard-capped by deleting the oldest entries
from the front of the array regardless of sleep state; the main particle
pool instead marks the `min(excess, #sleeping-settled)` sleeping fragments
with earliest `settledTime` as `doNotDraw` — fragments are never deleted and
only sleeping, settled fragments are ever marked — so its live count is
bounded by the cap whenever at least `excess` fragments are sleeping and
settled, and can remain above the cap otherwise. -/
theorem debris_pool_cap_spec (maxP maxN : ℕ) (ps l : List Particle) :
    (capArrayByDeletion maxN l).length ≤ maxN ∧
    (capArrayByDeletion maxN l).IsSuffix l ∧
    (capParticlesTick maxP ps).length = ps.length ∧
    (∀ k, k < ps.length →
      (capParticlesTick maxP ps).getD k default = ps.getD k default ∨
      ((capParticlesTick maxP ps).getD k default
          = { ps.getD k default with doNotDraw := true } ∧
        (ps.getD k default).sleeping = true ∧
        (ps.getD k default).settledTime.isSome = true)) ∧
    List.Pairwise keyLe (sortedEligibles ps) ∧
    (markedIds ps (ps.length - maxP)).length
      = min (ps.length - maxP) (eligPairs ps).length ∧
    (ps.length - maxP ≤ (eligPairs ps).length →
      liveCount (capParticlesTick maxP ps) ≤ maxP) := by
  refine ⟨?_, ?_, ?_, ?_, ?_, markedIds_length ps (ps.length - maxP), ?_⟩
  · unfold capArrayByDeletion
    split <;> rename_i h
    · rw [List.length_drop]
      omega
    · omega
  · unfold capArrayByDeletion
    split
    · exact List.drop_suffix _ _
    · exact List.suffix_refl l
  · unfold capParticlesTick
    split
    · rfl
    · exact applyMarks_length _ 0 ps
  · intro k hk
    unfold capParticlesTick
    split
    · exact Or.inl rfl
    · rw [applyMarks_getD _ 0 k ps hk]
      by_cases hmem : (0 + k) ∈ markedIds ps (ps.length - maxP)
      · rw [if_pos hmem]
        refine Or.inr ⟨rfl, ?_⟩
        have := (mem_markedIds ps (ps.length - maxP) hmem).2
        rw [show (0 + k) = k from by omega] at this
        rw [Particle.eligible, Bool.and_eq_true] at this
        exact this
      · rw [if_neg hmem]
        exact Or.inl rfl
  · exact List.sorted_insertionSort keyLe (eligPairs ps)
  · intro helig
    unfold capParticlesTick
    split <;> rename_i hover
    · calc liveCount ps ≤ ps.length := List.countP_le_length _
        _ ≤ maxP := hover
    · have hmlen : (markedIds ps (ps.length - maxP)).length = ps.length - maxP := by
        rw [markedIds_length]
        omega
      have hmono : liveCount (applyMarks (markedIds ps (ps.length - maxP)) 0 ps)
          ≤ (enumFrom 0 ps).countP fun x =>
              !(decide (x.1 ∈ markedIds ps (ps.length - maxP))) := by
        rw [liveCount_applyMarks]
        refine List.countP_mono_left fun x _ hx => ?_
        simp only [Bool.and_eq_true] at hx
        exact hx.2
      have hsplit := countP_pair_not_add
        (fun x => decide (x.1 ∈ markedIds ps (ps.length - maxP))) (enumFrom 0 ps)
      have hcnt := countP_mem_enumFrom (markedIds ps (ps.length - maxP)) ps
        (markedIds_nodup ps _) (fun j hj => (mem_markedIds ps _ hj).1)
      have hlen := enumFrom_length 0 ps
      omega

/-- Witness for C9 (amended): two settled sleepers plus one active fragment
over a cap of 2 — the two sleepers (earliest `settledTime` first) are
marked, the live count lands exactly on the cap, and the splice pool drops
to its cap. -/
theorem debris_pool_cap_spec_witness :
    (capArrayByDeletion 2 [(⟨false, none, false⟩ : Particle), ⟨false, none, false⟩,
        ⟨false, none, false⟩]).length ≤ 2 ∧
    (capArrayByDeletion 2 [(⟨false, none, false⟩ : Particle), ⟨false, none, false⟩,
        ⟨false, none, false⟩]).IsSuffix
      [⟨false, none, false⟩, ⟨false, none, false⟩, ⟨false, none, false⟩] ∧
    (capParticlesTick 2 [(⟨true, some 5, false⟩ : Particle), ⟨true, some 3, false⟩,
        ⟨false, none, false⟩]).length
      = [(⟨true, some 5, false⟩ : Particle), ⟨true, some 3, false⟩,
        ⟨false, none, false⟩].length ∧
    (∀ k, k < [(⟨true, some 5, false⟩ : Particle), ⟨true, some 3, false⟩,
        ⟨false, none, false⟩].length →
      (capParticlesTick 2 [(⟨true, some 5, false⟩ : Particle), ⟨true, some 3, false⟩,
          ⟨false, none, false⟩]).getD k default
        = [(⟨true, some 5, false⟩ : Particle), ⟨true, some 3, false⟩,
          ⟨false, none, false⟩].getD k default ∨
      ((capParticlesTick 2 [(⟨true, some 5, false⟩ : Particle), ⟨true, some 3, false⟩,
          ⟨false, none, false⟩]).getD k default
          = { [(⟨true, some 5, false⟩ : Particle), ⟨true, some 3, false⟩,
            ⟨false, none, false⟩].getD k default with doNotDraw := true } ∧
        ([(⟨true, some 5, false⟩ : Particle), ⟨true, some 3, false⟩,
          ⟨false, none, false⟩].getD k default).sleeping = true ∧
        ([(⟨true, some 5, false⟩ : Particle), ⟨true, some 3, false⟩,
          ⟨false, none, false⟩].getD k default).settledTime.isSome = true)) ∧
    List.Pairwise keyLe (sortedEligibles [(⟨true, some 5, false⟩ : Particle),
      ⟨true, some 3, false⟩, ⟨false, none, false⟩]) ∧
    (markedIds [(⟨true, some 5, false⟩ : Particle), ⟨true, some 3, false⟩,
        ⟨false, none, false⟩] ([(⟨true, some 5, false⟩ : Particle), ⟨true, some 3, false⟩,
        ⟨false, none, false⟩].length - 2)).length
      = min ([(⟨true, some 5, false⟩ : Particle), ⟨true, some 3, false⟩,
        ⟨false, none, false⟩].length - 2)
        (eligPairs [(⟨true, some 5, false⟩ : Particle), ⟨true, some 3, false⟩,
          ⟨false, none, false⟩]).length ∧
    ([(⟨true, some 5, false⟩ : Particle), ⟨true, some 3, false⟩,
        ⟨false, none, false⟩].length - 2
      ≤ (eligPairs [(⟨true, some 5, false⟩ : Particle), ⟨true, some 3, false⟩,
          ⟨false, none, false⟩]).length →
      liveCount (capParticlesTick 2 [(⟨true, some 5, false⟩ : Particle),
        ⟨true, some 3, false⟩, ⟨false, none, false⟩]) ≤ 2) :=
  debris_pool_cap_spec 2 2
    [⟨true, some 5, false⟩, ⟨true, some 3, false⟩, ⟨false, none, false⟩]
    [⟨false, none, false⟩, ⟨false, none, false⟩, ⟨false, none, false⟩]

end Game
